import Mathlib

/-!
Shallow embedding of the cart / checkout / order-lifecycle core of the
metier-backend repository (`src/routes/cart.py`, `src/routes/order.py`,
`src/models/order.py`, `src/models/product.py`).

Modelling conventions:
* Monetary amounts (`Numeric(10,2)` columns) are exact multiples of 0.01,
  so they are embedded as integer cents (`ℤ`, scaled by 100); every literal
  dollar amount of the source appears here multiplied by 100.  Stock counts
  and quantities are integers `ℤ`.
* SQLAlchemy rows become records; a query `filter_by(...).first()` becomes
  `List.find?`; mutating the object returned by `first()` becomes an update
  of the first matching list element; `session.delete(obj)` removes the
  first matching element; bulk `filter_by(...).delete()` empties the list.
* Each Flask handler becomes a pure function returning `Except ApiError α`;
  the early `return jsonify({'error': ...}), code` paths become the
  distinct `ApiError` constructors below.  `db.session.rollback()` in the
  `except` clause (plus the fact that every error return precedes the
  writes) is captured by the `..._state_after` wrappers, which keep the
  pre-call state on any error.
* Python falsiness of a missing / empty request field is modelled by the
  empty string; a missing `session_id` by `Option`.
* Timestamps (`datetime.utcnow()`) are abstract `Nat` instants passed in
  as a `now` parameter.
-/

namespace Metier

/-- Update the first element of a list satisfying `p` by `f`
(SQLAlchemy: mutate the row returned by `filter_by(...).first()`). -/
def updateFirst (p : α → Bool) (f : α → α) : List α → List α
  | [] => []
  | x :: xs => if p x then f x :: xs else x :: updateFirst p f xs

/-- Remove the first element of a list satisfying `p`
(SQLAlchemy: `db.session.delete(row)` for the row found by `first()`). -/
def eraseFirst (p : α → Bool) : List α → List α
  | [] => []
  | x :: xs => if p x then xs else x :: eraseFirst p xs

/-- A product row as the cart/order route handlers use it: the handlers
read `product.price`, `product.quantity` (available stock), and
`product.in_stock`, and snapshot `sku`/`title`/`brand` into order items.
`backorderable` is the flag of the product's `Inventory` row
(`src/models/product.py`), which the cart/checkout handlers never read. -/
structure Product where
  id : Nat
  sku : String
  title : String
  brand : String
  price : ℤ
  quantity : ℤ
  in_stock : Bool
  backorderable : Bool
deriving Repr, DecidableEq

/-- A `cart_items` row (`src/models/order.py`): quantity plus the unit
price captured at add-time. -/
structure CartItem where
  id : Nat
  product_id : Nat
  quantity : ℤ
  price : ℤ
deriving Repr, DecidableEq

/-- A `carts` row together with its `CartItem` collection.  `nextItemId`
models the autoincrement primary key used for new `cart_items` rows. -/
structure Cart where
  items : List CartItem
  nextItemId : Nat
deriving Repr, DecidableEq

/-- An `order_items` row: snapshot of the product plus quantity/prices. -/
structure OrderItem where
  order_id : Nat
  product_id : Nat
  product_sku : String
  product_title : String
  product_brand : String
  quantity : ℤ
  unit_price : ℤ
  total_price : ℤ
deriving Repr, DecidableEq

/-- An `orders` row (`src/models/order.py`), restricted to the fields the
handlers write or the claims mention. -/
structure Order where
  id : Nat
  order_number : String
  session_id : String
  status : String
  customer_email : String
  customer_name : String
  subtotal : ℤ
  tax_amount : ℤ
  shipping_amount : ℤ
  discount_amount : ℤ
  total_amount : ℤ
  payment_method : String
  payment_status : String
  payment_reference : Option String
  shipped_at : Option Nat
  delivered_at : Option Nat
  updated_at : Nat
  items : List OrderItem
deriving Repr, DecidableEq

/-- One constructor per distinct error response of the handlers. -/
inductive ApiError where
  /-- checkout: `'{field} is required'` (400). -/
  | fieldRequired (field : String)
  /-- checkout: `'No active cart found'` (400). -/
  | noActiveCart
  /-- checkout: `'Cart is empty'` (400). -/
  | emptyCart
  /-- cart add: `'Product ID is required'` (400). -/
  | productIdRequired
  /-- 404 responses, carrying the message. -/
  | notFound (msg : String)
  /-- cart add: `'Product is out of stock'` (400). -/
  | outOfStock
  /-- cart add/update: `'Only {n} items available'` (400). -/
  | insufficientStock (available : ℤ)
  /-- cart update: `'Item ID and quantity are required'` (400). -/
  | itemAndQuantityRequired
  /-- cart update: `'Quantity must be non-negative'` (400). -/
  | negativeQuantity
  /-- checkout: `'Product {title} is out of stock'` (400). -/
  | productOutOfStock (title : String)
  /-- checkout: `'Only {available} of {title} available'` (400). -/
  | insufficientStockFor (available : ℤ) (title : String)
  /-- order status: `'Status is required'` (400). -/
  | statusRequired
  /-- order status: `'Invalid status. Must be one of: ...'` (400). -/
  | invalidStatus
  /-- 500 responses (unexpected exception). -/
  | serverError
deriving Repr, DecidableEq

/-- `Product.query.get(product_id)` / the `cart_item.product` relationship:
first catalog row with the given id. -/
def findProduct (catalog : List Product) (pid : Nat) : Option Product :=
  catalog.find? (fun p => p.id == pid)

/-! ## Pricing calculator (`src/routes/order.py`, `calculate_tax` /
`calculate_shipping`) -/

/-- Rounding of the exact quotient `a / b` (for `b > 0`) to the nearest
integer with ties to even: the behaviour of Python's `round`. -/
def roundHalfEvenDiv (a b : ℤ) : ℤ :=
  let q := Int.fdiv a b
  let r := Int.emod a b
  if 2 * r < b then q
  else if b < 2 * r then q + 1
  else if q % 2 = 0 then q else q + 1

/-- `calculate_tax(subtotal, tax_rate=0.08)`:
`round(float(subtotal) * tax_rate, 2)`.  In cents: rounding
`subtotal * 8 / 100` to the nearest cent, ties to even. -/
def calculate_tax (subtotal : ℤ) : ℤ :=
  roundHalfEvenDiv (subtotal * 8) 100

/-- `calculate_shipping(subtotal, free_shipping_threshold=500.00)`:
`0.00` if `subtotal >= threshold`, else the flat rate `25.00`
(thresholds in cents). -/
def calculate_shipping (subtotal : ℤ) : ℤ :=
  if 50000 ≤ subtotal then 0 else 2500

/-! ## Cart store (`src/routes/cart.py`) -/

/-- `add_to_cart` (POST `/api/cart/add`).  `cart?` is the session's cart
row if one exists; `get_or_create_cart` supplies an empty cart otherwise.
Checks, in source order: falsy `product_id`; product exists; `in_stock`;
requested quantity against stock; then merge-into-existing-item (with a
second stock check on the merged quantity) or create a new item capturing
the product's current price. -/
def add_to_cart (catalog : List Product) (cart? : Option Cart)
    (product_id : Nat) (quantity : ℤ) : Except ApiError Cart :=
  if product_id = 0 then .error .productIdRequired
  else
    match findProduct catalog product_id with
    | none => .error (.notFound "Product not found")
    | some product =>
      if product.in_stock = false then .error .outOfStock
      else if product.quantity < quantity then .error (.insufficientStock product.quantity)
      else
        let cart := cart?.getD { items := [], nextItemId := 1 }
        match cart.items.find? (fun it => it.product_id == product_id) with
        | some existing =>
          let new_quantity := existing.quantity + quantity
          if product.quantity < new_quantity then .error (.insufficientStock product.quantity)
          else
            let items' := updateFirst (fun it => it.product_id == product_id)
              (fun it => { it with quantity := new_quantity }) cart.items
            .ok { cart with items := items' }
        | none =>
          let newItem : CartItem :=
            { id := cart.nextItemId, product_id := product_id,
              quantity := quantity, price := product.price }
          .ok { items := cart.items ++ [newItem], nextItemId := cart.nextItemId + 1 }

/-- `update_cart_item` (PUT `/api/cart/update`).  Checks, in source order:
falsy `item_id`; negative quantity; cart exists; item exists in this cart;
new quantity against current stock; then delete (quantity 0) or update.
A dangling `cart_item.product` would raise in Python, hence `serverError`. -/
def update_cart_item (catalog : List Product) (cart? : Option Cart)
    (item_id : Nat) (quantity : ℤ) : Except ApiError Cart :=
  if item_id = 0 then .error .itemAndQuantityRequired
  else if quantity < 0 then .error .negativeQuantity
  else
    match cart? with
    | none => .error (.notFound "Cart not found")
    | some cart =>
      match cart.items.find? (fun it => it.id == item_id) with
      | none => .error (.notFound "Cart item not found")
      | some item =>
        match findProduct catalog item.product_id with
        | none => .error .serverError
        | some product =>
          if product.quantity < quantity then .error (.insufficientStock product.quantity)
          else if quantity = 0 then
            .ok { cart with items := eraseFirst (fun it => it.id == item_id) cart.items }
          else
            let items' := updateFirst (fun it => it.id == item_id)
              (fun it => { it with quantity := quantity }) cart.items
            .ok { cart with items := items' }

/-- `remove_from_cart` (DELETE `/api/cart/remove/<item_id>`):
404 if the session has no cart or the item is not in it; otherwise
deletes the item row. -/
def remove_from_cart (cart? : Option Cart) (item_id : Nat) :
    Except ApiError Cart :=
  match cart? with
  | none => .error (.notFound "Cart not found")
  | some cart =>
    match cart.items.find? (fun it => it.id == item_id) with
    | none => .error (.notFound "Cart item not found")
    | some _ => .ok { cart with items := eraseFirst (fun it => it.id == item_id) cart.items }

/-- `clear_cart` (DELETE `/api/cart/clear`): with no cart row it returns
success (`'Cart is already empty'`) without creating one; otherwise it
bulk-deletes the cart's items.  Never an error. -/
def clear_cart (cart? : Option Cart) : Option Cart :=
  match cart? with
  | none => none
  | some cart => some { cart with items := [] }

/-- One public cart operation with its integer quantity argument, for
stating reachability over operation sequences. -/
inductive CartOp where
  | add (product_id : Nat) (quantity : ℤ)
  | update (item_id : Nat) (quantity : ℤ)
  | remove (item_id : Nat)
  | clear
deriving Repr, DecidableEq

/-- Run one cart operation against the session's cart state; a failed
operation leaves the stored cart unchanged (every error return in the
handlers precedes the corresponding write, and exceptions roll back). -/
def applyCartOp (catalog : List Product) (cart? : Option Cart) :
    CartOp → Option Cart
  | .add pid q =>
    match add_to_cart catalog cart? pid q with
    | .ok c => some c
    | .error _ => cart?
  | .update iid q =>
    match update_cart_item catalog cart? iid q with
    | .ok c => some c
    | .error _ => cart?
  | .remove iid =>
    match remove_from_cart cart? iid with
    | .ok c => some c
    | .error _ => cart?
  | .clear => clear_cart cart?

/-- The session's cart after a sequence of public cart operations,
starting from no cart. -/
def runOps (catalog : List Product) (ops : List CartOp) : Option Cart :=
  ops.foldl (applyCartOp catalog) none

/-! ## Checkout transaction (`src/routes/order.py`, `create_order`) -/

/-- The fields `create_order` requires to be present and non-falsy. -/
def required_fields : List String :=
  ["customer_email", "customer_name",
   "billing_address_line1", "billing_city", "billing_state", "billing_zip",
   "shipping_address_line1", "shipping_city", "shipping_state", "shipping_zip"]

/-- The cart-item validation loop of `create_order`: for each item in
order, `item.product.in_stock` then `item.quantity > item.product.quantity`;
returns the first failure.  A dangling `item.product` raises in Python. -/
def validateItems (catalog : List Product) : List CartItem → Option ApiError
  | [] => none
  | it :: rest =>
    match findProduct catalog it.product_id with
    | none => some .serverError
    | some p =>
      if p.in_stock = false then some (.productOutOfStock p.title)
      else if p.quantity < it.quantity then some (.insufficientStockFor p.quantity p.title)
      else validateItems catalog rest

/-- The inventory write of the order-item loop of `create_order`:
`product.quantity -= cart_item.quantity` followed by
`if product.quantity <= 0: product.in_stock = False`.
The source never consults `backorderable` here. -/
def decrementProduct (newQty : ℤ) (q : Product) : Product :=
  { q with quantity := newQty, in_stock := if newQty ≤ 0 then false else q.in_stock }

/-- The order-item creation loop of `create_order`: per cart item,
snapshot the product's sku/title/brand and the captured price into an
`OrderItem`, then decrement `product.quantity` and set `in_stock := false`
when the result is `≤ 0` (no `backorderable` consultation in the source).
The catalog is threaded left-to-right, as the live ORM objects are. -/
def processItems (order_id : Nat) (catalog : List Product) :
    List CartItem → Option (List OrderItem × List Product)
  | [] => some ([], catalog)
  | it :: rest =>
    match findProduct catalog it.product_id with
    | none => none
    | some p =>
      let oi : OrderItem :=
        { order_id := order_id, product_id := it.product_id,
          product_sku := p.sku, product_title := p.title, product_brand := p.brand,
          quantity := it.quantity, unit_price := it.price,
          total_price := it.quantity * it.price }
      let newQty := p.quantity - it.quantity
      let catalog' := updateFirst (fun q => q.id == it.product_id)
        (decrementProduct newQty) catalog
      match processItems order_id catalog' rest with
      | none => none
      | some (ois, cat') => some (oi :: ois, cat')

/-- The persistent state the checkout transaction touches: the product
catalog (inventory), the session's cart row, and the orders table. -/
structure CheckoutState where
  catalog : List Product
  cart? : Option Cart
  orders : List Order
deriving Repr, DecidableEq

/-- `create_order` (POST `/api/orders/checkout`).  `data` maps request
field names to values (empty string for missing/falsy), `session_id?` is
the session's id if any, `order_number`/`order_id` stand for the generated
number and the autoincrement key, `now` for `datetime.utcnow()`.
Steps in source order: required-field validation; session check; cart
lookup and emptiness check; per-item stock validation; totals; persist
order and order items while decrementing inventory; clear the cart. -/
def create_order (st : CheckoutState) (data : String → String)
    (session_id? : Option String) (order_number : String) (order_id : Nat)
    (now : Nat) : Except ApiError (Order × CheckoutState) :=
  match required_fields.find? (fun f => data f == "") with
  | some f => .error (.fieldRequired f)
  | none =>
    match session_id? with
    | none => .error .noActiveCart
    | some session_id =>
      match st.cart? with
      | none => .error .emptyCart
      | some cart =>
        if cart.items.isEmpty then .error .emptyCart
        else
          match validateItems st.catalog cart.items with
          | some e => .error e
          | none =>
            let subtotal : ℤ := (cart.items.map (fun it => it.quantity * it.price)).sum
            let tax_amount := calculate_tax subtotal
            let shipping_amount := calculate_shipping subtotal
            let discount_amount : ℤ := 0
            let total_amount := subtotal + tax_amount + shipping_amount - discount_amount
            match processItems order_id st.catalog cart.items with
            | none => .error .serverError
            | some (order_items, catalog') =>
              let order : Order :=
                { id := order_id, order_number := order_number,
                  session_id := session_id, status := "pending",
                  customer_email := data "customer_email",
                  customer_name := data "customer_name",
                  subtotal := subtotal, tax_amount := tax_amount,
                  shipping_amount := shipping_amount,
                  discount_amount := discount_amount,
                  total_amount := total_amount,
                  payment_method := if data "payment_method" == "" then "credit_card"
                                    else data "payment_method",
                  payment_status := "pending", payment_reference := none,
                  shipped_at := none, delivered_at := none,
                  updated_at := now, items := order_items }
              .ok (order,
                { catalog := catalog',
                  cart? := some { cart with items := [] },
                  orders := st.orders ++ [order] })

/-- The persistent state after a checkout attempt: unchanged on any error
(all error returns precede the commit and exceptions roll back). -/
def checkout_state_after (st : CheckoutState) (data : String → String)
    (session_id? : Option String) (order_number : String) (order_id : Nat)
    (now : Nat) : CheckoutState :=
  match create_order st data session_id? order_number order_id now with
  | .error _ => st
  | .ok (_, st') => st'

/-! ## Order lifecycle (`src/routes/order.py`) -/

/-- The six recognized order statuses. -/
def valid_statuses : List String :=
  ["pending", "confirmed", "processing", "shipped", "delivered", "cancelled"]

/-- `update_order_status` (PUT `/api/orders/<order_id>/status`).
Checks in source order: falsy status; membership in `valid_statuses`;
order exists.  Stamps `shipped_at` only when newly transitioning to
`shipped`, symmetrically for `delivered_at`; imposes no ordering between
statuses. -/
def update_order_status (orders : List Order) (order_id : Nat)
    (new_status : String) (now : Nat) : Except ApiError (Order × List Order) :=
  if new_status = "" then .error .statusRequired
  else if new_status ∉ valid_statuses then .error .invalidStatus
  else
    match orders.find? (fun o => o.id == order_id) with
    | none => .error (.notFound "Order not found")
    | some order =>
      let old_status := order.status
      let order' := { order with
        status := new_status, updated_at := now,
        shipped_at := if new_status = "shipped" ∧ old_status ≠ "shipped"
                      then some now else order.shipped_at,
        delivered_at := if new_status = "delivered" ∧ old_status ≠ "delivered"
                        then some now else order.delivered_at }
      .ok (order', updateFirst (fun o => o.id == order_id) (fun _ => order') orders)

/-- `confirm_payment` (POST `/api/orders/<order_number>/confirm-payment`):
404 for an unknown order number; otherwise sets `payment_status = 'paid'`,
records the reference, and forces `status = 'confirmed'` unconditionally. -/
def confirm_payment (orders : List Order) (order_number : String)
    (payment_reference : Option String) (now : Nat) :
    Except ApiError (Order × List Order) :=
  match orders.find? (fun o => o.order_number == order_number) with
  | none => .error (.notFound "Order not found")
  | some order =>
    let order' := { order with
      payment_status := "paid", payment_reference := payment_reference,
      status := "confirmed", updated_at := now }
    .ok (order', updateFirst (fun o => o.order_number == order_number)
          (fun _ => order') orders)

/-- The orders table after a `confirm_payment` attempt: unchanged on
error (the 404 return precedes every write). -/
def confirm_payment_orders_after (orders : List Order) (order_number : String)
    (payment_reference : Option String) (now : Nat) : List Order :=
  match confirm_payment orders order_number payment_reference now with
  | .error _ => orders
  | .ok (_, orders') => orders'

/-- Positivity constraint on the quantity argument of an `add` operation
(the only way a fresh quantity enters a cart). -/
def addArgPos : CartOp → Prop
  | .add _ q => 1 ≤ q
  | _ => True

/-! ## Concrete fixtures used by witnesses and counterexamples -/

/-- In-stock product, price 100.00, 10 available. -/
def pAlpha : Product :=
  { id := 1, sku := "A1", title := "Alpha", brand := "BrandA",
    price := 10000, quantity := 10, in_stock := true, backorderable := false }

/-- In-stock product, price 50.00, 3 available. -/
def pBeta : Product :=
  { id := 2, sku := "B1", title := "Beta", brand := "BrandB",
    price := 5000, quantity := 3, in_stock := true, backorderable := false }

/-- Product flagged out of stock. -/
def pGamma : Product :=
  { id := 3, sku := "C1", title := "Gamma", brand := "BrandC",
    price := 2000, quantity := 5, in_stock := false, backorderable := false }

/-- Backorderable product with exactly one unit available. -/
def pDelta : Product :=
  { id := 4, sku := "D1", title := "Delta", brand := "BrandD",
    price := 1000, quantity := 1, in_stock := true, backorderable := true }

def catalogFix : List Product := [pAlpha, pBeta, pGamma, pDelta]

/-- A request whose required fields are all present. -/
def dataFix : String → String := fun _ => "x"

/-- A two-line cart matching `catalogFix` (products 1 and 2). -/
def cartFix : Cart :=
  { items := [{ id := 1, product_id := 1, quantity := 2, price := 10000 },
              { id := 2, product_id := 2, quantity := 1, price := 5000 }],
    nextItemId := 3 }

def stFix : CheckoutState := { catalog := catalogFix, cart? := some cartFix, orders := [] }

def stNoCart : CheckoutState := { catalog := catalogFix, cart? := none, orders := [] }

def stEmptyCart : CheckoutState :=
  { catalog := catalogFix, cart? := some { items := [], nextItemId := 1 }, orders := [] }

/-- A cart requesting 5 units of product 2, of which only 3 are on hand. -/
def cartTooMany : Cart :=
  { items := [{ id := 1, product_id := 2, quantity := 5, price := 5000 }], nextItemId := 2 }

def stTooMany : CheckoutState := { catalog := catalogFix, cart? := some cartTooMany, orders := [] }

/-- A cart buying the single remaining unit of backorderable product 4. -/
def cartDelta : Cart :=
  { items := [{ id := 1, product_id := 4, quantity := 1, price := 1000 }], nextItemId := 2 }

def stDelta : CheckoutState := { catalog := catalogFix, cart? := some cartDelta, orders := [] }

/-- One-item cart used for remove/idempotence scenarios. -/
def cartC7 : Cart :=
  { items := [{ id := 1, product_id := 1, quantity := 2, price := 10000 }], nextItemId := 2 }

/-- The cart reachable by `add(product 1, quantity 0)` from an empty session. -/
def cartBad10 : Cart :=
  { items := [{ id := 1, product_id := 1, quantity := 0, price := 10000 }], nextItemId := 2 }

def itemW : CartItem := { id := 1, product_id := 1, quantity := 2, price := 10000 }

def cartW : Cart := { items := [itemW], nextItemId := 2 }

def cartW6 : Cart :=
  { items := [{ id := 1, product_id := 2, quantity := 2, price := 5000 }], nextItemId := 2 }

/-- A persisted order already shipped (with `shipped_at` stamped). -/
def orderShipped : Order :=
  { id := 1, order_number := "MET-20250101-0001", session_id := "s",
    status := "shipped", customer_email := "e", customer_name := "n",
    subtotal := 10000, tax_amount := 800, shipping_amount := 2500,
    discount_amount := 0, total_amount := 13300,
    payment_method := "credit_card", payment_status := "pending",
    payment_reference := none, shipped_at := some 5, delivered_at := none,
    updated_at := 0, items := [] }

/-- A persisted order still pending. -/
def orderPending : Order :=
  { id := 2, order_number := "MET-20250101-0002", session_id := "s",
    status := "pending", customer_email := "e", customer_name := "n",
    subtotal := 10000, tax_amount := 800, shipping_amount := 2500,
    discount_amount := 0, total_amount := 13300,
    payment_method := "credit_card", payment_status := "pending",
    payment_reference := none, shipped_at := none, delivered_at := none,
    updated_at := 0, items := [] }

end Metier

/-! # Theorems -/

namespace Metier

theorem length_updateFirst (p : α → Bool) (f : α → α) :
    ∀ l : List α, (updateFirst p f l).length = l.length := by
  intro l
  induction l with
  | nil => rfl
  | cons x xs ih =>
    simp only [updateFirst]
    split <;> simp [ih]

theorem mem_updateFirst {p : α → Bool} {f : α → α} :
    ∀ {l : List α} {y : α}, y ∈ updateFirst p f l →
      y ∈ l ∨ ∃ x, x ∈ l ∧ p x = true ∧ y = f x := by
  intro l
  induction l with
  | nil => intro y h; simp [updateFirst] at h
  | cons x xs ih =>
    intro y h
    simp only [updateFirst] at h
    by_cases hx : p x = true
    · rw [if_pos hx] at h
      rcases List.mem_cons.mp h with h | h
      · exact Or.inr ⟨x, List.mem_cons_self x xs, hx, h⟩
      · exact Or.inl (List.mem_cons_of_mem _ h)
    · rw [if_neg hx] at h
      rcases List.mem_cons.mp h with h | h
      · exact Or.inl (h ▸ List.mem_cons_self x xs)
      · rcases ih h with h' | ⟨z, hz, hpz, hy⟩
        · exact Or.inl (List.mem_cons_of_mem _ h')
        · exact Or.inr ⟨z, List.mem_cons_of_mem _ hz, hpz, hy⟩

theorem find?_updateFirst {p : α → Bool} {f : α → α}
    (hf : ∀ x, p x = true → p (f x) = true) :
    ∀ l : List α, (updateFirst p f l).find? p = (l.find? p).map f := by
  intro l
  induction l with
  | nil => rfl
  | cons x xs ih =>
    simp only [updateFirst]
    by_cases hx : p x = true
    · have hfx : p (f x) = true := hf x hx
      rw [if_pos hx]
      simp [List.find?_cons, hx, hfx]
    · have hx' : p x = false := by simpa using hx
      rw [if_neg hx]
      simp [List.find?_cons, hx', ih]

theorem mem_eraseFirst {p : α → Bool} :
    ∀ {l : List α} {y : α}, y ∈ eraseFirst p l → y ∈ l := by
  intro l
  induction l with
  | nil => intro y h; simp [eraseFirst] at h
  | cons x xs ih =>
    intro y h
    simp only [eraseFirst] at h
    by_cases hx : p x = true
    · rw [if_pos hx] at h
      exact List.mem_cons_of_mem _ h
    · rw [if_neg hx] at h
      rcases List.mem_cons.mp h with h | h
      · exact h ▸ List.mem_cons_self x xs
      · exact List.mem_cons_of_mem _ (ih h)

theorem length_eraseFirst_of_find? {p : α → Bool} :
    ∀ {l : List α} {x : α}, l.find? p = some x →
      (eraseFirst p l).length + 1 = l.length := by
  intro l
  induction l with
  | nil => intro x h; simp at h
  | cons y ys ih =>
    intro x h
    simp only [eraseFirst]
    by_cases hy : p y = true
    · rw [if_pos hy]; rfl
    · have hy' : p y = false := by simpa using hy
      rw [List.find?_cons, hy'] at h
      rw [if_neg hy]
      simp [ih h]

theorem find?_eraseFirst_key (key : α → Nat) (k : Nat) :
    ∀ l : List α, (l.map key).Nodup →
      (eraseFirst (fun x => key x == k) l).find? (fun x => key x == k) = none := by
  intro l
  induction l with
  | nil => intro _; rfl
  | cons x xs ih =>
    intro hnd
    simp only [List.map_cons, List.nodup_cons] at hnd
    simp only [eraseFirst]
    by_cases hx : (key x == k) = true
    · rw [if_pos hx]
      rw [List.find?_eq_none]
      intro y hy hky
      refine hnd.1 ?_
      rw [List.mem_map]
      refine ⟨y, hy, ?_⟩
      have h1 : key x = k := by simpa using hx
      have h2 : key y = k := by simpa using hky
      rw [h1, h2]
    · have hx' : (key x == k) = false := by simpa using hx
      rw [if_neg hx]
      simp [List.find?_cons, hx', ih hnd.2]

theorem findProduct_updateFirst_of_ne {f : Product → Product}
    (hf : ∀ p, (f p).id = p.id) {pid pid' : Nat} (hne : pid ≠ pid') :
    ∀ cat : List Product,
      findProduct (updateFirst (fun q => q.id == pid') f cat) pid = findProduct cat pid := by
  intro cat
  induction cat with
  | nil => rfl
  | cons q qs ih =>
    simp only [updateFirst, findProduct]
    by_cases hq : (q.id == pid') = true
    · have hqid : q.id = pid' := by simpa using hq
      have h1 : ((f q).id == pid) = false := by simp [hf q, hqid, Ne.symm hne]
      have h2 : (q.id == pid) = false := by simp [hqid, Ne.symm hne]
      rw [if_pos hq]
      simp [List.find?_cons, h1, h2]
    · rw [if_neg hq]
      by_cases hqp : (q.id == pid) = true
      · simp [List.find?_cons, hqp]
      · have hqp' : (q.id == pid) = false := by simpa using hqp
        simp only [List.find?_cons, hqp']
        simpa [findProduct] using ih

theorem findProduct_updateFirst_self {f : Product → Product}
    (hf : ∀ p, (f p).id = p.id) (pid : Nat) :
    ∀ cat : List Product,
      findProduct (updateFirst (fun q => q.id == pid) f cat) pid =
        (findProduct cat pid).map f := by
  intro cat
  induction cat with
  | nil => rfl
  | cons q qs ih =>
    simp only [updateFirst, findProduct]
    by_cases hq : (q.id == pid) = true
    · have hfq : ((f q).id == pid) = true := by rw [hf q]; exact hq
      rw [if_pos hq]
      simp [List.find?_cons, hq, hfq]
    · have hq' : (q.id == pid) = false := by simpa using hq
      rw [if_neg hq]
      simp only [List.find?_cons, hq']
      simpa [findProduct] using ih

/-- Success analysis of `create_order`: a successful checkout captures the
cart, passes validation, and persists totals computed exactly as in the
source (`subtotal`, tax, shipping, `discount_amount = 0`, and
`total_amount = subtotal + tax + shipping - discount`). -/
theorem create_order_ok_facts {st : CheckoutState} {data : String → String}
    {session_id? : Option String} {order_number : String} {order_id now : Nat}
    {order : Order} {st' : CheckoutState}
    (h : create_order st data session_id? order_number order_id now = .ok (order, st')) :
    ∃ cart, st.cart? = some cart ∧ cart.items ≠ [] ∧
      validateItems st.catalog cart.items = none ∧
      order.subtotal = (cart.items.map (fun it => it.quantity * it.price)).sum ∧
      order.tax_amount = calculate_tax order.subtotal ∧
      order.shipping_amount = calculate_shipping order.subtotal ∧
      order.discount_amount = 0 ∧
      order.total_amount = order.subtotal + order.tax_amount +
        order.shipping_amount - order.discount_amount ∧
      processItems order_id st.catalog cart.items = some (order.items, st'.catalog) ∧
      st'.cart? = some { cart with items := [] } ∧
      st'.orders = st.orders ++ [order] := by
  unfold create_order at h
  split at h
  · cases h
  · split at h
    · cases h
    · split at h
      · cases h
      · next cart heqc =>
        split at h
        · cases h
        · next hemp =>
          split at h
          · cases h
          · next heqv =>
            split at h
            · cases h
            · next ois cat' heqp =>
              simp only [Except.ok.injEq, Prod.mk.injEq] at h
              obtain ⟨horder, hst'⟩ := h
              subst horder
              subst hst'
              refine ⟨cart, heqc, ?_, heqv, by simp, by simp, by simp, by simp, by simp, ?_, by simp⟩
              · simpa using hemp
              · simpa using heqp

/-- If the validation loop of `create_order` passes, every cart item's
product exists, is in stock, and covers the requested quantity. -/
theorem validateItems_eq_none {catalog : List Product} :
    ∀ {items : List CartItem}, validateItems catalog items = none →
      ∀ it ∈ items, ∃ p, findProduct catalog it.product_id = some p ∧
        p.in_stock = true ∧ it.quantity ≤ p.quantity := by
  intro items
  induction items with
  | nil => intro _ it hit; simp at hit
  | cons x xs ih =>
    intro h it hit
    cases hfp : findProduct catalog x.product_id with
    | none =>
      simp only [validateItems, hfp] at h
      exact Option.noConfusion h
    | some p =>
      simp only [validateItems, hfp] at h
      by_cases hin : p.in_stock = false
      · rw [if_pos hin] at h; simp at h
      · rw [if_neg hin] at h
        by_cases hlt : p.quantity < x.quantity
        · rw [if_pos hlt] at h; simp at h
        · rw [if_neg hlt] at h
          rcases List.mem_cons.mp hit with rfl | hmem
          · exact ⟨p, hfp, by simpa using hin, le_of_not_lt hlt⟩
          · exact ih h it hmem

/-- If every product referenced by the cart exists and is in stock but
some line requests more than its product's stock, the validation loop of
`create_order` fails with `insufficientStockFor`, naming an offending
product. -/
theorem validateItems_insufficient {catalog : List Product} :
    ∀ {items : List CartItem},
      (∀ it ∈ items, ∃ p, findProduct catalog it.product_id = some p ∧ p.in_stock = true) →
      (∃ it ∈ items, ∃ p, findProduct catalog it.product_id = some p ∧ p.quantity < it.quantity) →
      ∃ it ∈ items, ∃ p, findProduct catalog it.product_id = some p ∧ p.quantity < it.quantity ∧
        validateItems catalog items = some (.insufficientStockFor p.quantity p.title) := by
  intro items
  induction items with
  | nil => intro _ hex; simp at hex
  | cons x xs ih =>
    intro hall hex
    obtain ⟨p, hfp, hin⟩ := hall x (List.mem_cons_self x xs)
    simp only [validateItems, hfp]
    rw [if_neg (by simp [hin])]
    by_cases hlt : p.quantity < x.quantity
    · rw [if_pos hlt]
      exact ⟨x, List.mem_cons_self x xs, p, hfp, hlt, rfl⟩
    · rw [if_neg hlt]
      have hex' : ∃ it ∈ xs, ∃ q, findProduct catalog it.product_id = some q ∧
          q.quantity < it.quantity := by
        rcases hex with ⟨it, hit, q, hq, hql⟩
        rcases List.mem_cons.mp hit with rfl | hmem
        · rw [hfp] at hq
          cases hq
          exact absurd hql hlt
        · exact ⟨it, hmem, q, hq, hql⟩
      obtain ⟨it, hit, q, hq, hql, hval⟩ :=
        ih (fun it h => hall it (List.mem_cons_of_mem _ h)) hex'
      exact ⟨it, List.mem_cons_of_mem _ hit, q, hq, hql, hval⟩

/-- The inventory loop of `create_order` does not touch products that do
not occur among the processed cart items. -/
theorem processItems_findProduct_not_mem {order_id : Nat} :
    ∀ {items : List CartItem} {cat : List Product} {ois : List OrderItem}
      {cat' : List Product},
      processItems order_id cat items = some (ois, cat') →
      ∀ pid, pid ∉ items.map CartItem.product_id →
        findProduct cat' pid = findProduct cat pid := by
  intro items
  induction items with
  | nil =>
    intro cat ois cat' h pid _
    simp only [processItems, Option.some.injEq, Prod.mk.injEq] at h
    rw [h.2]
  | cons x xs ih =>
    intro cat ois cat' h pid hpid
    cases hfp : findProduct cat x.product_id with
    | none =>
      simp only [processItems, hfp] at h
      exact Option.noConfusion h
    | some p =>
      simp only [processItems, hfp] at h
      simp only [List.map_cons, List.mem_cons, not_or] at hpid
      split at h
      · exact Option.noConfusion h
      · next ois' cat'' heq =>
        simp only [Option.some.injEq, Prod.mk.injEq] at h
        obtain ⟨hois, hcat⟩ := h
        subst hcat
        rw [ih heq pid hpid.2]
        refine findProduct_updateFirst_of_ne ?_ hpid.1 cat
        intro q
        rfl

/-- Inventory effect of the order-item loop of `create_order`: when the
cart references pairwise distinct products, each referenced product's
stock is decremented by exactly the purchased quantity, with the
out-of-stock flag set exactly when the new stock is `≤ 0`. -/
theorem processItems_findProduct {order_id : Nat} :
    ∀ {items : List CartItem} {cat : List Product} {ois : List OrderItem}
      {cat' : List Product},
      processItems order_id cat items = some (ois, cat') →
      (items.map CartItem.product_id).Nodup →
      ∀ it ∈ items, ∃ p, findProduct cat it.product_id = some p ∧
        findProduct cat' it.product_id =
          some (decrementProduct (p.quantity - it.quantity) p) := by
  intro items
  induction items with
  | nil => intro cat ois cat' _ _ it hit; simp at hit
  | cons x xs ih =>
    intro cat ois cat' h hnd it hit
    cases hfp : findProduct cat x.product_id with
    | none =>
      simp only [processItems, hfp] at h
      exact Option.noConfusion h
    | some p =>
      simp only [processItems, hfp] at h
      simp only [List.map_cons, List.nodup_cons] at hnd
      split at h
      · exact Option.noConfusion h
      · next ois' cat'' heq =>
        simp only [Option.some.injEq, Prod.mk.injEq] at h
        obtain ⟨hois, hcat⟩ := h
        subst hcat
        have hf : ∀ q, (decrementProduct (p.quantity - x.quantity) q).id = q.id :=
          fun q => rfl
        rcases List.mem_cons.mp hit with rfl | hmem
        · refine ⟨p, hfp, ?_⟩
          rw [processItems_findProduct_not_mem heq it.product_id hnd.1]
          rw [findProduct_updateFirst_self hf it.product_id cat, hfp]
          rfl
        · have hne : it.product_id ≠ x.product_id := by
            intro hcontra
            apply hnd.1
            rw [← hcontra]
            exact List.mem_map_of_mem CartItem.product_id hmem
          obtain ⟨p₁, hp₁, hp₁'⟩ := ih heq hnd.2 it hmem
          refine ⟨p₁, ?_, hp₁'⟩
          rw [← findProduct_updateFirst_of_ne hf hne cat]
          exact hp₁

/-- C1: for every successful checkout, the persisted order's
`total_amount` equals `subtotal + tax_amount + shipping_amount -
discount_amount` exactly (amounts are 2-decimal values, embedded as
cents), where `subtotal` is the sum over all cart items of quantity times
the captured unit price, and `discount_amount` is 0. -/
theorem C1_checkout_totals {st : CheckoutState} {data : String → String}
    {session_id? : Option String} {order_number : String} {order_id now : Nat}
    {order : Order} {st' : CheckoutState} {cart : Cart}
    (hcart : st.cart? = some cart)
    (h : create_order st data session_id? order_number order_id now = .ok (order, st')) :
    order.total_amount = order.subtotal + order.tax_amount +
      order.shipping_amount - order.discount_amount ∧
    order.subtotal = (cart.items.map (fun it => it.quantity * it.price)).sum ∧
    order.discount_amount = 0 ∧
    order.tax_amount = calculate_tax order.subtotal ∧
    order.shipping_amount = calculate_shipping order.subtotal := by
  obtain ⟨cart', hcart', _, _, hsub, htax, hship, hdisc, htot, _, _, _⟩ :=
    create_order_ok_facts h
  rw [hcart] at hcart'
  have hcc : cart = cart' := Option.some.inj hcart'
  subst hcc
  exact ⟨htot, hsub, hdisc, htax, hship⟩

/-- Witness for C1 at a concrete checkout (subtotal 250.00, tax 20.00,
shipping 25.00, total 295.00). -/
theorem C1_witness :
    ∃ order st',
      create_order stFix dataFix (some "sess") "MET-20251012-0001" 1 0 = .ok (order, st') ∧
      (order.total_amount = order.subtotal + order.tax_amount +
        order.shipping_amount - order.discount_amount ∧
      order.subtotal = (cartFix.items.map (fun it => it.quantity * it.price)).sum ∧
      order.discount_amount = 0 ∧
      order.tax_amount = calculate_tax order.subtotal ∧
      order.shipping_amount = calculate_shipping order.subtotal) := by
  obtain ⟨order, st', h⟩ : ∃ order st',
      create_order stFix dataFix (some "sess") "MET-20251012-0001" 1 0 =
        .ok (order, st') := ⟨_, _, rfl⟩
  exact ⟨order, st', h,
    C1_checkout_totals (show stFix.cart? = some cartFix from rfl) h⟩

/-- C4: the pricing calculator is pure and deterministic (it is a function
of its argument alone); `tax(subtotal) = round(subtotal * 0.08, 2)` and
`shipping(subtotal)` is 0.00 at or above the 500.00 threshold, else a flat
25.00; subtotal 1299.00 yields tax 103.92, shipping 0.00, total 1402.92;
subtotal 100.00 yields tax 8.00, shipping 25.00, total 133.00 (all amounts
in cents). -/
theorem C4_pricing_calculator :
    calculate_tax 129900 = 10392 ∧ calculate_shipping 129900 = 0 ∧
    (129900 : ℤ) + calculate_tax 129900 + calculate_shipping 129900 = 140292 ∧
    calculate_tax 10000 = 800 ∧ calculate_shipping 10000 = 2500 ∧
    (10000 : ℤ) + calculate_tax 10000 + calculate_shipping 10000 = 13300 ∧
    (∀ s : ℤ, calculate_tax s = roundHalfEvenDiv (s * 8) 100) ∧
    (∀ s : ℤ, 50000 ≤ s → calculate_shipping s = 0) ∧
    (∀ s : ℤ, s < 50000 → calculate_shipping s = 2500) := by
  refine ⟨by decide, by decide, by decide, by decide, by decide, by decide,
    fun s => rfl, ?_, ?_⟩
  · intro s h
    unfold calculate_shipping
    rw [if_pos h]
  · intro s h
    unfold calculate_shipping
    rw [if_neg (not_le.mpr h)]

/-- Witness for C4's quantified components at concrete subtotals. -/
theorem C4_witness :
    calculate_tax 123456 = roundHalfEvenDiv (123456 * 8) 100 ∧
    calculate_shipping 50000 = 0 ∧ calculate_shipping 49999 = 2500 :=
  ⟨C4_pricing_calculator.2.2.2.2.2.2.1 123456,
   C4_pricing_calculator.2.2.2.2.2.2.2.1 50000 (by decide),
   C4_pricing_calculator.2.2.2.2.2.2.2.2 49999 (by decide)⟩

/-- C2: with a well-formed request (all required fields present and a
session id), checkout with an absent or empty cart fails with the
empty-cart error; if every cart product exists and is in stock but some
line's quantity exceeds its product's current stock, checkout fails with
`insufficientStockFor`, naming an offending product; and any failed
checkout leaves the whole persistent state (orders, inventory, cart)
unchanged. -/
theorem C2_checkout_failures {st : CheckoutState} {data : String → String}
    {session_id : String} {order_number : String} {order_id now : Nat}
    (hfields : required_fields.find? (fun f => data f == "") = none) :
    (st.cart? = none →
      create_order st data (some session_id) order_number order_id now =
        .error .emptyCart) ∧
    (∀ cart, st.cart? = some cart → cart.items = [] →
      create_order st data (some session_id) order_number order_id now =
        .error .emptyCart) ∧
    (∀ cart, st.cart? = some cart →
      (∀ it ∈ cart.items, ∃ p, findProduct st.catalog it.product_id = some p ∧
        p.in_stock = true) →
      (∃ it ∈ cart.items, ∃ p, findProduct st.catalog it.product_id = some p ∧
        p.quantity < it.quantity) →
      ∃ it ∈ cart.items, ∃ p, findProduct st.catalog it.product_id = some p ∧
        p.quantity < it.quantity ∧
        create_order st data (some session_id) order_number order_id now =
          .error (.insufficientStockFor p.quantity p.title)) ∧
    (∀ e, create_order st data (some session_id) order_number order_id now = .error e →
      checkout_state_after st data (some session_id) order_number order_id now = st) := by
  refine ⟨?_, ?_, ?_, ?_⟩
  · intro hnone
    simp only [create_order, hfields, hnone]
  · intro cart hc he
    simp only [create_order, hfields, hc, he, List.isEmpty_nil, if_true]
  · intro cart hc hall hex
    obtain ⟨it, hit, p, hp, hlt, hval⟩ := validateItems_insufficient hall hex
    have hemp : cart.items.isEmpty = false := by
      cases hl : cart.items with
      | nil => rw [hl] at hit; simp at hit
      | cons a as => rfl
    refine ⟨it, hit, p, hp, hlt, ?_⟩
    simp only [create_order, hfields, hc, hemp, Bool.false_eq_true, if_false, hval]
  · intro e he
    unfold checkout_state_after
    rw [he]

/-- Witness for C2: a missing cart, an empty cart, and a cart ordering
5 of a product with 3 on hand, each with the state left unchanged. -/
theorem C2_witness :
    create_order stNoCart dataFix (some "sess") "MET-1" 1 0 = .error .emptyCart ∧
    create_order stEmptyCart dataFix (some "sess") "MET-1" 1 0 = .error .emptyCart ∧
    (∃ it ∈ cartTooMany.items, ∃ p,
      findProduct stTooMany.catalog it.product_id = some p ∧
      p.quantity < it.quantity ∧
      create_order stTooMany dataFix (some "sess") "MET-1" 1 0 =
        .error (.insufficientStockFor p.quantity p.title)) ∧
    checkout_state_after stTooMany dataFix (some "sess") "MET-1" 1 0 = stTooMany := by
  have hfields : required_fields.find? (fun f => dataFix f == "") = none := rfl
  refine ⟨(C2_checkout_failures hfields).1 rfl,
    (C2_checkout_failures hfields).2.1 _ rfl rfl,
    (C2_checkout_failures hfields).2.2.1 cartTooMany rfl ?_ ?_,
    (C2_checkout_failures hfields).2.2.2 (.insufficientStockFor 3 "Beta") rfl⟩
  · intro it hit
    have : it = { id := 1, product_id := 2, quantity := 5, price := 5000 } := by
      simpa [cartTooMany] using hit
    subst this
    exact ⟨pBeta, rfl, rfl⟩
  · exact ⟨{ id := 1, product_id := 2, quantity := 5, price := 5000 }, by decide,
      pBeta, rfl, by decide⟩

/-- C3 (amended): after every successful checkout whose cart lines
reference pairwise distinct products, each purchased product's
post-checkout stock equals its pre-checkout stock minus the purchased
quantity, the stock never goes negative, and whenever the decrement
drives the stock to 0 the product is marked out of stock — unconditionally,
regardless of `backorderable` (the source never consults that flag). -/
theorem C3_inventory_decrement {st : CheckoutState} {data : String → String}
    {session_id? : Option String} {order_number : String} {order_id now : Nat}
    {order : Order} {st' : CheckoutState} {cart : Cart}
    (hcart : st.cart? = some cart)
    (hnd : (cart.items.map CartItem.product_id).Nodup)
    (h : create_order st data session_id? order_number order_id now = .ok (order, st')) :
    ∀ it ∈ cart.items, ∃ p p', findProduct st.catalog it.product_id = some p ∧
      findProduct st'.catalog it.product_id = some p' ∧
      p'.quantity = p.quantity - it.quantity ∧
      0 ≤ p'.quantity ∧
      (p'.quantity ≤ 0 → p'.in_stock = false) := by
  obtain ⟨cart', hcart', _, hval, _, _, _, _, _, hproc, _, _⟩ := create_order_ok_facts h
  rw [hcart] at hcart'
  have hcc : cart = cart' := Option.some.inj hcart'
  subst hcc
  intro it hit
  obtain ⟨p, hp, hin, hle⟩ := validateItems_eq_none hval it hit
  obtain ⟨p₂, hp₂, hp₂'⟩ := processItems_findProduct hproc hnd it hit
  rw [hp] at hp₂
  have hpp : p = p₂ := Option.some.inj hp₂
  subst hpp
  refine ⟨p, decrementProduct (p.quantity - it.quantity) p, hp, hp₂', rfl, ?_, ?_⟩
  · show 0 ≤ p.quantity - it.quantity
    omega
  · intro hz
    have hz' : p.quantity - it.quantity ≤ 0 := hz
    show (if p.quantity - it.quantity ≤ 0 then false else p.in_stock) = false
    rw [if_pos hz']

/-- Witness for C3's amended statement at a concrete checkout. -/
theorem C3_witness :
    ∃ order st',
      create_order stFix dataFix (some "sess") "MET-20251012-0002" 1 0 = .ok (order, st') ∧
      ∀ it ∈ cartFix.items, ∃ p p',
        findProduct stFix.catalog it.product_id = some p ∧
        findProduct st'.catalog it.product_id = some p' ∧
        p'.quantity = p.quantity - it.quantity ∧
        0 ≤ p'.quantity ∧
        (p'.quantity ≤ 0 → p'.in_stock = false) := by
  obtain ⟨order, st', h⟩ : ∃ order st',
      create_order stFix dataFix (some "sess") "MET-20251012-0002" 1 0 =
        .ok (order, st') := ⟨_, _, rfl⟩
  exact ⟨order, st', h,
    C3_inventory_decrement (show stFix.cart? = some cartFix from rfl) (by decide) h⟩

/-- Counterexample for C3 as stated: checking out the last unit of the
backorderable product 4 succeeds and still marks it out of stock
(`in_stock = false`), although the claim exempts backorderable products. -/
theorem C3_counterexample :
    (create_order stDelta dataFix (some "sess") "MET-2" 1 0).isOk = true ∧
    findProduct (checkout_state_after stDelta dataFix (some "sess") "MET-2" 1 0).catalog 4 =
      some { id := 4, sku := "D1", title := "Delta", brand := "BrandD",
             price := 1000, quantity := 0, in_stock := false, backorderable := true } :=
  ⟨rfl, rfl⟩

/-- C5: `add` fails `NotFound` for an unknown product, `OutOfStock` for an
unavailable product, and `InsufficientStock` when the requested quantity —
or the merged quantity if the product is already in the cart — exceeds the
available stock; on success it merges into the existing `CartItem` by
summing quantities (one row, unchanged row count) or appends a new item
capturing the product's current unit price (two different products give
two rows). -/
theorem C5_add_to_cart {catalog : List Product} {cart? : Option Cart}
    {pid : Nat} {q : ℤ} (hpid : pid ≠ 0) :
    (findProduct catalog pid = none →
      add_to_cart catalog cart? pid q = .error (.notFound "Product not found")) ∧
    (∀ p, findProduct catalog pid = some p → p.in_stock = false →
      add_to_cart catalog cart? pid q = .error .outOfStock) ∧
    (∀ p, findProduct catalog pid = some p → p.in_stock = true → p.quantity < q →
      add_to_cart catalog cart? pid q = .error (.insufficientStock p.quantity)) ∧
    (∀ p cart existing, findProduct catalog pid = some p → p.in_stock = true →
      q ≤ p.quantity → cart? = some cart →
      cart.items.find? (fun it => it.product_id == pid) = some existing →
      (p.quantity < existing.quantity + q →
        add_to_cart catalog cart? pid q = .error (.insufficientStock p.quantity)) ∧
      (existing.quantity + q ≤ p.quantity →
        ∃ c', add_to_cart catalog cart? pid q = .ok c' ∧
          c'.items.length = cart.items.length ∧
          c'.items.find? (fun it => it.product_id == pid) =
            some { existing with quantity := existing.quantity + q })) ∧
    (∀ p cart, findProduct catalog pid = some p → p.in_stock = true →
      q ≤ p.quantity → cart? = some cart →
      cart.items.find? (fun it => it.product_id == pid) = none →
      add_to_cart catalog cart? pid q =
        .ok { items := cart.items ++
                [{ id := cart.nextItemId, product_id := pid,
                   quantity := q, price := p.price }],
              nextItemId := cart.nextItemId + 1 }) := by
  refine ⟨?_, ?_, ?_, ?_, ?_⟩
  · intro hfp
    simp only [add_to_cart, if_neg hpid, hfp]
  · intro p hfp hout
    simp only [add_to_cart, if_neg hpid, hfp, hout, if_true]
  · intro p hfp hin hlt
    simp only [add_to_cart, if_neg hpid, hfp, hin, Bool.true_eq_false, if_false, hlt, if_true]
  · intro p cart existing hfp hin hle hc hfind
    have hnlt : ¬ p.quantity < q := not_lt.mpr hle
    constructor
    · intro hover
      simp only [add_to_cart, if_neg hpid, hfp, hin, Bool.true_eq_false, if_false,
        if_neg hnlt, hc, Option.getD_some, hfind, hover, if_true]
    · intro hfit
      have hnover : ¬ p.quantity < existing.quantity + q := not_lt.mpr hfit
      let items' := updateFirst (fun it => it.product_id == pid)
        (fun it => { it with quantity := existing.quantity + q }) cart.items
      refine ⟨{ cart with items := items' }, ?_, ?_, ?_⟩
      · simp only [add_to_cart, if_neg hpid, hfp, hin, Bool.true_eq_false, if_false,
          if_neg hnlt, hc, Option.getD_some, hfind, if_neg hnover]
      · exact length_updateFirst _ _ cart.items
      · have hf : ∀ it : CartItem, (it.product_id == pid) = true →
            (({ it with quantity := existing.quantity + q } : CartItem).product_id == pid) = true :=
          fun it h => h
        have key := find?_updateFirst hf cart.items
        rw [hfind] at key
        exact key
  · intro p cart hfp hin hle hc hfind
    have hnlt : ¬ p.quantity < q := not_lt.mpr hle
    simp only [add_to_cart, if_neg hpid, hfp, hin, Bool.true_eq_false, if_false,
      if_neg hnlt, hc, Option.getD_some, hfind]

/-- Witness for C5 against `catalogFix` and the one-line cart `cartW`. -/
theorem C5_witness :
    add_to_cart catalogFix (some cartW) 7 5 = .error (.notFound "Product not found") ∧
    add_to_cart catalogFix (some cartW) 3 1 = .error .outOfStock ∧
    add_to_cart catalogFix (some cartW) 2 4 = .error (.insufficientStock 3) ∧
    add_to_cart catalogFix (some cartW) 1 9 = .error (.insufficientStock 10) ∧
    (∃ c', add_to_cart catalogFix (some cartW) 1 3 = .ok c' ∧
      c'.items.length = cartW.items.length ∧
      c'.items.find? (fun it => it.product_id == 1) =
        some { itemW with quantity := itemW.quantity + 3 }) ∧
    add_to_cart catalogFix (some cartW) 2 2 =
      .ok { items := cartW.items ++
              [{ id := cartW.nextItemId, product_id := 2,
                 quantity := 2, price := pBeta.price }],
            nextItemId := cartW.nextItemId + 1 } :=
  by
  refine ⟨?_, ?_, ?_, ?_, ?_, ?_⟩
  · exact (C5_add_to_cart (by decide)).1 rfl
  · exact (C5_add_to_cart (by decide)).2.1 pGamma rfl rfl
  · exact (C5_add_to_cart (by decide)).2.2.1 pBeta rfl rfl (by decide)
  · have h4 := (C5_add_to_cart (show (1 : Nat) ≠ 0 by decide)).2.2.2.1 pAlpha cartW itemW
      (show findProduct catalogFix 1 = some pAlpha from rfl) rfl
      (show (9 : ℤ) ≤ pAlpha.quantity by decide) rfl rfl
    exact h4.1 (by decide)
  · have h5 := (C5_add_to_cart (show (1 : Nat) ≠ 0 by decide)).2.2.2.1 pAlpha cartW itemW
      (show findProduct catalogFix 1 = some pAlpha from rfl) rfl
      (show (3 : ℤ) ≤ pAlpha.quantity by decide) rfl rfl
    exact h5.2 (by decide)
  · exact (C5_add_to_cart (by decide)).2.2.2.2 pBeta cartW rfl rfl (by decide) rfl rfl

/-- C6: `update_quantity` fails `ValidationError` for a negative quantity,
deletes the item at quantity 0 (the cart's row count drops by one), and
otherwise re-validates against current stock, failing `InsufficientStock`
when the new quantity exceeds availability and updating the row's quantity
on success. -/
theorem C6_update_cart_item {catalog : List Product} {cart? : Option Cart}
    {iid : Nat} {q : ℤ} (hiid : iid ≠ 0) :
    (q < 0 → update_cart_item catalog cart? iid q = .error .negativeQuantity) ∧
    (∀ cart item p, cart? = some cart →
      cart.items.find? (fun it => it.id == iid) = some item →
      findProduct catalog item.product_id = some p →
      (0 ≤ q → p.quantity < q →
        update_cart_item catalog cart? iid q = .error (.insufficientStock p.quantity)) ∧
      (q = 0 → 0 ≤ p.quantity →
        update_cart_item catalog cart? iid q =
          .ok { cart with items := eraseFirst (fun it => it.id == iid) cart.items } ∧
        (eraseFirst (fun it => it.id == iid) cart.items).length + 1 =
          cart.items.length) ∧
      (0 < q → q ≤ p.quantity →
        ∃ c', update_cart_item catalog cart? iid q = .ok c' ∧
          c'.items.find? (fun it => it.id == iid) = some { item with quantity := q } ∧
          c'.items.length = cart.items.length)) := by
  constructor
  · intro hneg
    simp only [update_cart_item, if_neg hiid, hneg, if_true]
  · intro cart item p hc hfind hfp
    refine ⟨?_, ?_, ?_⟩
    · intro hge hlt
      have hnneg : ¬ q < 0 := not_lt.mpr hge
      simp only [update_cart_item, if_neg hiid, if_neg hnneg, hc, hfind, hfp, hlt, if_true]
    · intro hz hpq
      subst hz
      have hnneg : ¬ (0 : ℤ) < 0 := by decide
      have hnlt : ¬ p.quantity < 0 := not_lt.mpr hpq
      constructor
      · simp only [update_cart_item, hc, hfind, hfp, if_neg hiid, if_neg hnneg,
          if_neg hnlt, eq_self_iff_true, if_true]
      · exact length_eraseFirst_of_find? hfind
    · intro hpos hle
      have hnneg : ¬ q < 0 := not_lt.mpr (le_of_lt hpos)
      have hnlt : ¬ p.quantity < q := not_lt.mpr hle
      have hnz : ¬ q = 0 := ne_of_gt hpos
      let items' := updateFirst (fun it => it.id == iid)
        (fun it => { it with quantity := q }) cart.items
      refine ⟨{ cart with items := items' }, ?_, ?_, ?_⟩
      · simp only [update_cart_item, hc, hfind, hfp, if_neg hiid, if_neg hnneg,
          if_neg hnlt, if_neg hnz]
      · have hf : ∀ it : CartItem, (it.id == iid) = true →
            (({ it with quantity := q } : CartItem).id == iid) = true :=
          fun it h => h
        have key := find?_updateFirst hf cart.items
        rw [hfind] at key
        exact key
      · exact length_updateFirst _ _ cart.items

/-- Witness for C6 against `catalogFix` and the one-line cart `cartW6`
(item 1: 2 units of product 2, which has 3 on hand). -/
theorem C6_witness :
    update_cart_item catalogFix (some cartW6) 1 (-1) = .error .negativeQuantity ∧
    update_cart_item catalogFix (some cartW6) 1 9 = .error (.insufficientStock 3) ∧
    (update_cart_item catalogFix (some cartW6) 1 0 =
      .ok { cartW6 with items := eraseFirst (fun it => it.id == 1) cartW6.items } ∧
     (eraseFirst (fun it => it.id == 1) cartW6.items).length + 1 =
       cartW6.items.length) ∧
    (∃ c', update_cart_item catalogFix (some cartW6) 1 3 = .ok c' ∧
      c'.items.find? (fun it => it.id == 1) =
        some { id := 1, product_id := 2, quantity := 3, price := 5000 } ∧
      c'.items.length = cartW6.items.length) :=
  by
  refine ⟨?_, ?_, ?_, ?_⟩
  · exact (C6_update_cart_item (show (1 : Nat) ≠ 0 by decide)).1
      (show (-1 : ℤ) < 0 by decide)
  · exact ((C6_update_cart_item (show (1 : Nat) ≠ 0 by decide)).2 cartW6
      { id := 1, product_id := 2, quantity := 2, price := 5000 } pBeta rfl rfl
      (show findProduct catalogFix 2 = some pBeta from rfl)).1
      (show (0 : ℤ) ≤ 9 by decide) (show pBeta.quantity < 9 by decide)
  · exact ((C6_update_cart_item (show (1 : Nat) ≠ 0 by decide)).2 cartW6
      { id := 1, product_id := 2, quantity := 2, price := 5000 } pBeta rfl rfl
      (show findProduct catalogFix 2 = some pBeta from rfl)).2.1
      rfl (by decide)
  · exact ((C6_update_cart_item (show (1 : Nat) ≠ 0 by decide)).2 cartW6
      { id := 1, product_id := 2, quantity := 2, price := 5000 } pBeta rfl rfl
      (show findProduct catalogFix 2 = some pBeta from rfl)).2.2
      (show (0 : ℤ) < 3 by decide) (show (3 : ℤ) ≤ pBeta.quantity by decide)

/-- Counterexample for C7 as stated: removing the only item of a cart
succeeds, but repeating the same `remove` does not succeed — it fails 404
`Cart item not found` — so "repeating either operation succeeds" is false
for `remove`. -/
theorem C7_counterexample :
    remove_from_cart (some cartC7) 1 = .ok { items := [], nextItemId := 2 } ∧
    remove_from_cart (some { items := [], nextItemId := 2 }) 1 =
      .error (.notFound "Cart item not found") :=
  ⟨rfl, rfl⟩

/-- C7 (amended): `clear` is idempotent and clearing a nonexistent cart is
a no-op success; a repeated `remove` leaves the cart state unchanged but
fails `NotFound` (404) instead of succeeding. -/
theorem C7_clear_remove_idempotence :
    (∀ cart? : Option Cart, clear_cart (clear_cart cart?) = clear_cart cart?) ∧
    clear_cart none = none ∧
    (∀ (cart : Cart) (iid : Nat) (c' : Cart),
      (cart.items.map CartItem.id).Nodup →
      remove_from_cart (some cart) iid = .ok c' →
      remove_from_cart (some c') iid = .error (.notFound "Cart item not found")) := by
  refine ⟨?_, rfl, ?_⟩
  · intro cart?
    cases cart? <;> rfl
  · intro cart iid c' hnd hok
    cases hfind : cart.items.find? (fun it => it.id == iid) with
    | none =>
      simp only [remove_from_cart, hfind] at hok
      exact Except.noConfusion hok
    | some item =>
      simp only [remove_from_cart, hfind] at hok
      have hc' : c' = { cart with items := eraseFirst (fun it => it.id == iid) cart.items } :=
        (Except.ok.inj hok).symm
      subst hc'
      have key := find?_eraseFirst_key CartItem.id iid cart.items hnd
      simp only [remove_from_cart, key]

/-- Witness for C7's amended statement at concrete carts. -/
theorem C7_witness :
    clear_cart (clear_cart (some cartC7)) = clear_cart (some cartC7) ∧
    clear_cart none = none ∧
    remove_from_cart (some { items := [], nextItemId := 2 }) 1 =
      .error (.notFound "Cart item not found") :=
  ⟨C7_clear_remove_idempotence.1 (some cartC7),
   C7_clear_remove_idempotence.2.1,
   C7_clear_remove_idempotence.2.2 cartC7 1 { items := [], nextItemId := 2 }
     (by decide) rfl⟩

/-- C8: `set_status` fails `ValidationError` when the status is not one of
the six recognized values, fails `NotFound` for an absent order,
stamps `shipped_at` only when newly transitioning to `shipped`
(re-entering `shipped` keeps the old timestamp), symmetrically for
`delivered_at`, and accepts any of the six statuses from any prior status
(no ordering constraint). -/
theorem C8_update_order_status {orders : List Order} {oid : Nat} {ns : String}
    {now : Nat} :
    (ns ∉ valid_statuses →
      update_order_status orders oid ns now = .error .statusRequired ∨
      update_order_status orders oid ns now = .error .invalidStatus) ∧
    (ns ∈ valid_statuses → orders.find? (fun o => o.id == oid) = none →
      update_order_status orders oid ns now = .error (.notFound "Order not found")) ∧
    (∀ order, ns ∈ valid_statuses → orders.find? (fun o => o.id == oid) = some order →
      ∃ order' rest, update_order_status orders oid ns now = .ok (order', rest) ∧
        order'.status = ns ∧
        order'.shipped_at = (if ns = "shipped" ∧ order.status ≠ "shipped"
          then some now else order.shipped_at) ∧
        order'.delivered_at = (if ns = "delivered" ∧ order.status ≠ "delivered"
          then some now else order.delivered_at)) := by
  refine ⟨?_, ?_, ?_⟩
  · intro hnm
    by_cases hns : ns = ""
    · left
      simp only [update_order_status, if_pos hns]
    · right
      simp only [update_order_status, if_neg hns, if_pos hnm]
  · intro hmem hfind
    have hns : ¬ ns = "" := by
      intro h
      subst h
      simp [valid_statuses] at hmem
    have hnm : ¬ ns ∉ valid_statuses := not_not_intro hmem
    simp only [update_order_status, if_neg hns, if_neg hnm, hfind]
  · intro order hmem hfind
    have hns : ¬ ns = "" := by
      intro h
      subst h
      simp [valid_statuses] at hmem
    have hnm : ¬ ns ∉ valid_statuses := not_not_intro hmem
    let order' : Order := { order with
      status := ns, updated_at := now,
      shipped_at := if ns = "shipped" ∧ order.status ≠ "shipped"
                    then some now else order.shipped_at,
      delivered_at := if ns = "delivered" ∧ order.status ≠ "delivered"
                      then some now else order.delivered_at }
    refine ⟨order', updateFirst (fun o => o.id == oid) (fun _ => order') orders,
      ?_, rfl, rfl, rfl⟩
    simp only [update_order_status, if_neg hns, if_neg hnm, hfind]

/-- Witness for C8: an invalid status, a missing order, idempotent
re-entry into `shipped` (timestamp kept), and a direct
`pending → cancelled` jump. -/
theorem C8_witness :
    (update_order_status [orderShipped, orderPending] 1 "bogus" 9 =
        .error .statusRequired ∨
      update_order_status [orderShipped, orderPending] 1 "bogus" 9 =
        .error .invalidStatus) ∧
    update_order_status [orderShipped, orderPending] 7 "shipped" 9 =
      .error (.notFound "Order not found") ∧
    (∃ order' rest, update_order_status [orderShipped, orderPending] 1 "shipped" 9 =
        .ok (order', rest) ∧
      order'.status = "shipped" ∧
      order'.shipped_at = (if "shipped" = "shipped" ∧ orderShipped.status ≠ "shipped"
        then some 9 else orderShipped.shipped_at) ∧
      order'.delivered_at = (if "shipped" = "delivered" ∧ orderShipped.status ≠ "delivered"
        then some 9 else orderShipped.delivered_at)) ∧
    (∃ order' rest, update_order_status [orderShipped, orderPending] 2 "cancelled" 9 =
        .ok (order', rest) ∧
      order'.status = "cancelled" ∧
      order'.shipped_at = (if "cancelled" = "shipped" ∧ orderPending.status ≠ "shipped"
        then some 9 else orderPending.shipped_at) ∧
      order'.delivered_at = (if "cancelled" = "delivered" ∧ orderPending.status ≠ "delivered"
        then some 9 else orderPending.delivered_at)) := by
  refine ⟨?_, ?_, ?_, ?_⟩
  · exact C8_update_order_status.1 (by decide)
  · exact C8_update_order_status.2.1 (by decide) rfl
  · exact C8_update_order_status.2.2 orderShipped (by decide) rfl
  · exact C8_update_order_status.2.2 orderPending (by decide) rfl

/-- C9: `confirm_payment` on an unknown order number fails `NotFound` and
performs no write (the orders table is unchanged); on success it sets
`payment_status = "paid"`, records the payment reference, and forces
`status = "confirmed"` regardless of the order's prior status. -/
theorem C9_confirm_payment {orders : List Order} {onum : String}
    {ref : Option String} {now : Nat} :
    (orders.find? (fun o => o.order_number == onum) = none →
      confirm_payment orders onum ref now = .error (.notFound "Order not found") ∧
      confirm_payment_orders_after orders onum ref now = orders) ∧
    (∀ order, orders.find? (fun o => o.order_number == onum) = some order →
      ∃ rest, confirm_payment orders onum ref now =
        .ok ({ order with
               payment_status := "paid",
               payment_reference := ref,
               status := "confirmed",
               updated_at := now }, rest)) := by
  constructor
  · intro hfind
    constructor
    · simp only [confirm_payment, hfind]
    · simp only [confirm_payment_orders_after, confirm_payment, hfind]
  · intro order hfind
    let order' : Order := { order with
      payment_status := "paid", payment_reference := ref,
      status := "confirmed", updated_at := now }
    refine ⟨updateFirst (fun o => o.order_number == onum) (fun _ => order') orders, ?_⟩
    simp only [confirm_payment, hfind]

/-- Witness for C9: an unknown order number leaves the table unchanged; a
known one is forced to `confirmed`/`paid` even from `shipped`. -/
theorem C9_witness :
    (confirm_payment [orderShipped] "MET-NOPE" (some "ref-1") 9 =
        .error (.notFound "Order not found") ∧
      confirm_payment_orders_after [orderShipped] "MET-NOPE" (some "ref-1") 9 =
        [orderShipped]) ∧
    (∃ rest, confirm_payment [orderShipped] "MET-20250101-0001" (some "ref-1") 9 =
      .ok ({ orderShipped with
             payment_status := "paid",
             payment_reference := some "ref-1",
             status := "confirmed",
             updated_at := 9 }, rest)) :=
  ⟨C9_confirm_payment.1 rfl,
   C9_confirm_payment.2 orderShipped rfl⟩

/-- A successful `add_to_cart` keeps all quantities at least 1, provided
the pre-state does and the requested quantity is at least 1. -/
theorem add_to_cart_ok_quantities {catalog : List Product} {cart? : Option Cart}
    {pid : Nat} {q : ℤ} {c' : Cart}
    (h : add_to_cart catalog cart? pid q = .ok c')
    (hbase : ∀ cart, cart? = some cart → ∀ it ∈ cart.items, 1 ≤ it.quantity)
    (hq : 1 ≤ q) :
    ∀ it ∈ c'.items, 1 ≤ it.quantity := by
  have hbase' : ∀ it ∈ (cart?.getD { items := [], nextItemId := 1 }).items,
      1 ≤ it.quantity := by
    cases cart? with
    | none => intro it hit; simp at hit
    | some cart => exact hbase cart rfl
  unfold add_to_cart at h
  split at h
  · exact Except.noConfusion h
  · split at h
    · exact Except.noConfusion h
    · split at h
      · exact Except.noConfusion h
      · split at h
        · exact Except.noConfusion h
        · simp only [] at h
          split at h
          · next existing hfind =>
            split at h
            · exact Except.noConfusion h
            · have hc' : c' = _ := (Except.ok.inj h).symm
              subst hc'
              intro it hit
              rcases mem_updateFirst hit with hmem | ⟨x, hx, hpx, hyx⟩
              · exact hbase' it hmem
              · have hex : 1 ≤ existing.quantity :=
                  hbase' existing (List.mem_of_find?_eq_some hfind)
                subst hyx
                show 1 ≤ existing.quantity + q
                omega
          · next hfind =>
            have hc' : c' = _ := (Except.ok.inj h).symm
            subst hc'
            intro it hit
            simp only [List.mem_append, List.mem_singleton] at hit
            rcases hit with hmem | rfl
            · exact hbase' it hmem
            · exact hq

/-- A successful `update_cart_item` keeps all quantities at least 1,
provided the pre-state does (a zero quantity deletes the row and negative
quantities are rejected, so no new value below 1 is ever stored). -/
theorem update_cart_item_ok_quantities {catalog : List Product}
    {cart? : Option Cart} {iid : Nat} {q : ℤ} {c' : Cart}
    (h : update_cart_item catalog cart? iid q = .ok c')
    (hbase : ∀ cart, cart? = some cart → ∀ it ∈ cart.items, 1 ≤ it.quantity) :
    ∀ it ∈ c'.items, 1 ≤ it.quantity := by
  unfold update_cart_item at h
  split at h
  · exact Except.noConfusion h
  · next hneg =>
    split at h
    · exact Except.noConfusion h
    · split at h
      · exact Except.noConfusion h
      · next cart =>
        split at h
        · exact Except.noConfusion h
        · next item hfind =>
          split at h
          · exact Except.noConfusion h
          · split at h
            · exact Except.noConfusion h
            · split at h
              · have hc' : c' = _ := (Except.ok.inj h).symm
                subst hc'
                intro it hit
                exact hbase cart rfl it (mem_eraseFirst hit)
              · next hnz =>
                have hc' : c' = _ := (Except.ok.inj h).symm
                subst hc'
                intro it hit
                rcases mem_updateFirst hit with hmem | ⟨x, hx, hpx, hyx⟩
                · exact hbase cart rfl it hmem
                · subst hyx
                  show 1 ≤ q
                  omega

/-- A successful `remove_from_cart` keeps all quantities at least 1,
provided the pre-state does. -/
theorem remove_from_cart_ok_quantities {cart? : Option Cart} {iid : Nat} {c' : Cart}
    (h : remove_from_cart cart? iid = .ok c')
    (hbase : ∀ cart, cart? = some cart → ∀ it ∈ cart.items, 1 ≤ it.quantity) :
    ∀ it ∈ c'.items, 1 ≤ it.quantity := by
  unfold remove_from_cart at h
  split at h
  · exact Except.noConfusion h
  · next cart =>
    split at h
    · exact Except.noConfusion h
    · have hc' : c' = _ := (Except.ok.inj h).symm
      subst hc'
      intro it hit
      exact hbase cart rfl it (mem_eraseFirst hit)

/-- One public cart operation whose `add` argument (if any) is at least 1
preserves the everything-at-least-1 invariant; a failed operation leaves
the state unchanged. -/
theorem applyCartOp_preserves {catalog : List Product} {s : Option Cart} {op : CartOp}
    (hs : ∀ c, s = some c → ∀ it ∈ c.items, 1 ≤ it.quantity)
    (hop : addArgPos op) :
    ∀ c, applyCartOp catalog s op = some c → ∀ it ∈ c.items, 1 ≤ it.quantity := by
  intro c hc
  cases op with
  | add pid q =>
    simp only [applyCartOp] at hc
    cases hadd : add_to_cart catalog s pid q with
    | ok c0 =>
      simp only [hadd, Option.some.injEq] at hc
      subst hc
      exact add_to_cart_ok_quantities hadd hs hop
    | error e =>
      simp only [hadd] at hc
      exact hs c hc
  | update iid q =>
    simp only [applyCartOp] at hc
    cases hupd : update_cart_item catalog s iid q with
    | ok c0 =>
      simp only [hupd, Option.some.injEq] at hc
      subst hc
      exact update_cart_item_ok_quantities hupd hs
    | error e =>
      simp only [hupd] at hc
      exact hs c hc
  | remove iid =>
    simp only [applyCartOp] at hc
    cases hrem : remove_from_cart s iid with
    | ok c0 =>
      simp only [hrem, Option.some.injEq] at hc
      subst hc
      exact remove_from_cart_ok_quantities hrem hs
    | error e =>
      simp only [hrem] at hc
      exact hs c hc
  | clear =>
    cases s with
    | none => simp [applyCartOp, clear_cart] at hc
    | some cart =>
      simp only [applyCartOp, clear_cart, Option.some.injEq] at hc
      subst hc
      intro it hit
      simp at hit

/-- C10 (amended): for every sequence of public cart operations in which
every `add` is called with quantity at least 1, every item of every
reachable cart has quantity at least 1.  (The source performs no lower
bound check on `add`, so the restriction to `add` quantities ≥ 1 is
necessary — see the counterexample.) -/
theorem C10_cart_quantity_invariant (catalog : List Product) (ops : List CartOp)
    (hpos : ∀ op ∈ ops, addArgPos op) :
    ∀ cart, runOps catalog ops = some cart → ∀ it ∈ cart.items, 1 ≤ it.quantity := by
  suffices hgen : ∀ (ops : List CartOp) (s : Option Cart),
      (∀ c, s = some c → ∀ it ∈ c.items, 1 ≤ it.quantity) →
      (∀ op ∈ ops, addArgPos op) →
      ∀ c, ops.foldl (applyCartOp catalog) s = some c →
        ∀ it ∈ c.items, 1 ≤ it.quantity by
    intro cart hrun
    exact hgen ops none (by intro c hc; exact Option.noConfusion hc) hpos cart hrun
  intro ops
  induction ops with
  | nil =>
    intro s hsafe _ c hc
    exact hsafe c hc
  | cons op rest ih =>
    intro s hsafe hpos' c hc
    simp only [List.foldl_cons] at hc
    exact ih (applyCartOp catalog s op)
      (applyCartOp_preserves hsafe (hpos' op (List.mem_cons_self op rest)))
      (fun o ho => hpos' o (List.mem_cons_of_mem _ ho)) c hc

/-- Witness for C10's amended statement: a four-operation session whose
adds use quantities 2 and 3. -/
theorem C10_witness :
    (∀ op ∈ [CartOp.add 1 2, CartOp.add 1 3, CartOp.update 1 1, CartOp.remove 1],
      addArgPos op) ∧
    ∀ cart, runOps catalogFix
        [CartOp.add 1 2, CartOp.add 1 3, CartOp.update 1 1, CartOp.remove 1] =
        some cart →
      ∀ it ∈ cart.items, 1 ≤ it.quantity := by
  have hpos : ∀ op ∈ [CartOp.add 1 2, CartOp.add 1 3, CartOp.update 1 1,
      CartOp.remove 1], addArgPos op := by
    intro op hop
    simp only [List.mem_cons, List.mem_singleton] at hop
    rcases hop with rfl | rfl | rfl | rfl | h
    · exact (by decide : (1 : ℤ) ≤ 2)
    · exact (by decide : (1 : ℤ) ≤ 3)
    · trivial
    · trivial
    · simp at h
  exact ⟨hpos, C10_cart_quantity_invariant catalogFix _ hpos⟩

/-- Counterexample for C10 as stated: `add(product 1, quantity 0)` is
accepted by the source (no lower-bound check) and creates a reachable
`CartItem` whose quantity is 0, violating "quantity ≥ 1 for any integer
quantity arguments". -/
theorem C10_counterexample :
    runOps catalogFix [CartOp.add 1 0] = some cartBad10 ∧
    cartBad10.items.any (fun it => decide (it.quantity < 1)) = true :=
  ⟨rfl, rfl⟩

end Metier
